import Mathlib

/-!
Shallow embedding of the MCP server's JSON-RPC core
(`app/api/routes/mcp.py`, `app/core/unified_errors.py`,
`app/core/errors.py`, `app/services/tool_registry.py`).

Python values decoded from JSON bodies are modelled by `PyVal`
(numeric literals are modelled as integers; floating point does not
occur in any claim).  `json.loads` maps JSON `null` to Python `None`,
so both an absent key and a key bound to `null` are observed as `None`
through `dict.get` — `pyGet` mirrors exactly that.

Exceptions that escape a Python function are modelled with `Except`:
the engine functions return `Except String _` where the `.error`
branch carries the message of an escaping (uncaught) Python exception,
such as the pydantic `ValidationError` raised when a response is
constructed with an `id` that is not `None`, a string, or an integer.
-/

namespace MCP

/-- Python values as they come out of `json.loads` (numbers restricted
to integers; no claim involves floating point). -/
inductive PyVal where
  | none : PyVal
  | bool (b : Bool) : PyVal
  | int (n : Int) : PyVal
  | str (s : String) : PyVal
  | list (xs : List PyVal) : PyVal
  | dict (kvs : List (String × PyVal)) : PyVal
deriving Repr, Inhabited

mutual

/-- Decidable equality on `PyVal` (hand-written: automatic deriving does
not handle the nested lists). -/
def PyVal.decEq : (a b : PyVal) → Decidable (a = b)
  | .none, .none => isTrue rfl
  | .bool x, .bool y =>
      if h : x = y then isTrue (by rw [h]) else isFalse (fun hc => h (by injection hc))
  | .int x, .int y =>
      if h : x = y then isTrue (by rw [h]) else isFalse (fun hc => h (by injection hc))
  | .str x, .str y =>
      if h : x = y then isTrue (by rw [h]) else isFalse (fun hc => h (by injection hc))
  | .list xs, .list ys =>
      match PyVal.decEqList xs ys with
      | isTrue h => isTrue (by rw [h])
      | isFalse h => isFalse (fun hc => h (by injection hc))
  | .dict xs, .dict ys =>
      match PyVal.decEqKVs xs ys with
      | isTrue h => isTrue (by rw [h])
      | isFalse h => isFalse (fun hc => h (by injection hc))
  | .none, .bool _ | .none, .int _ | .none, .str _ | .none, .list _ | .none, .dict _
  | .bool _, .none | .bool _, .int _ | .bool _, .str _ | .bool _, .list _ | .bool _, .dict _
  | .int _, .none | .int _, .bool _ | .int _, .str _ | .int _, .list _ | .int _, .dict _
  | .str _, .none | .str _, .bool _ | .str _, .int _ | .str _, .list _ | .str _, .dict _
  | .list _, .none | .list _, .bool _ | .list _, .int _ | .list _, .str _ | .list _, .dict _
  | .dict _, .none | .dict _, .bool _ | .dict _, .int _ | .dict _, .str _ | .dict _, .list _ =>
      isFalse (fun hc => nomatch hc)

def PyVal.decEqList : (xs ys : List PyVal) → Decidable (xs = ys)
  | [], [] => isTrue rfl
  | [], _ :: _ => isFalse (fun hc => nomatch hc)
  | _ :: _, [] => isFalse (fun hc => nomatch hc)
  | x :: xs, y :: ys =>
      match PyVal.decEq x y with
      | isFalse h => isFalse (fun hc => h (by injection hc))
      | isTrue h1 =>
          match PyVal.decEqList xs ys with
          | isTrue h2 => isTrue (by rw [h1, h2])
          | isFalse h => isFalse (fun hc => h (by injection hc))

def PyVal.decEqKVs : (xs ys : List (String × PyVal)) → Decidable (xs = ys)
  | [], [] => isTrue rfl
  | [], _ :: _ => isFalse (fun hc => nomatch hc)
  | _ :: _, [] => isFalse (fun hc => nomatch hc)
  | (k1, v1) :: xs, (k2, v2) :: ys =>
      if hk : k1 = k2 then
        match PyVal.decEq v1 v2 with
        | isFalse h =>
            isFalse (fun hc => by injection hc with h1 h2; exact h (congrArg Prod.snd h1))
        | isTrue h1 =>
            match PyVal.decEqKVs xs ys with
            | isTrue h2 => isTrue (by rw [hk, h1, h2])
            | isFalse h => isFalse (fun hc => h (by injection hc))
      else
        isFalse (fun hc => by injection hc with h1 h2; exact hk (congrArg Prod.fst h1))

end

instance : DecidableEq PyVal := PyVal.decEq

/-- Python `d.get(k)`: the stored value, or `None` when the key is absent. -/
def pyGet (kvs : List (String × PyVal)) (k : String) : PyVal :=
  (kvs.lookup k).getD PyVal.none

/-- Python `d.get(k, default)`: the stored value (even when it is `None`),
or `default` when the key is absent. -/
def pyGetD (kvs : List (String × PyVal)) (k : String) (d : PyVal) : PyVal :=
  (kvs.lookup k).getD d

def PyVal.isStr : PyVal → Bool
  | .str _ => true
  | _ => false

def PyVal.isInt : PyVal → Bool
  | .int _ => true
  | _ => false

def PyVal.isDict : PyVal → Bool
  | .dict _ => true
  | _ => false

def PyVal.isList : PyVal → Bool
  | .list _ => true
  | _ => false

/-- Membership test `k in v` on a rendered dict. -/
def PyVal.hasKey : PyVal → String → Bool
  | .dict kvs, k => (kvs.lookup k).isSome
  | _, _ => false

/-! ## Error taxonomy and mapper (`app/core/unified_errors.py`) -/

/-- The table `ErrorCodeMapping.HTTP_TO_JSONRPC` — the dict literal, as a lookup
(`dict.get` returning `none` off the table). -/
def HTTP_TO_JSONRPC (status : Nat) : Option Int :=
  if status = 400 then some (-32600)
  else if status = 404 then some (-32800)
  else if status = 401 then some (-32000)
  else if status = 403 then some (-32001)
  else if status = 422 then some (-32602)
  else if status = 500 then some (-32603)
  else none

/-- The table `ErrorCodeMapping.JSONRPC_TO_HTTP` — the dict literal, as a lookup. -/
def JSONRPC_TO_HTTP (code : Int) : Option Nat :=
  if code = -32600 then some 400
  else if code = -32601 then some 404
  else if code = -32602 then some 422
  else if code = -32603 then some 500
  else if code = -32700 then some 400
  else if code = -32800 then some 404
  else if code = -32000 then some 401
  else if code = -32001 then some 403
  else none

/-- Mapping `ErrorCodeMapping.http_to_jsonrpc`: dict `.get` with default `-32603`. -/
def http_to_jsonrpc (status : Nat) : Int :=
  (HTTP_TO_JSONRPC status).getD (-32603)

/-- Mapping `ErrorCodeMapping.jsonrpc_to_http`: dict `.get` with default `500`. -/
def jsonrpc_to_http (code : Int) : Nat :=
  (JSONRPC_TO_HTTP code).getD 500

/-! ## JSON-RPC response envelopes (`app/models/jsonrpc.py`) -/

/-- Model `JSONRPCErrorDetail`: integer code, message, optional structured data.
`data` is typed `Optional[Dict[str, Any]]` in the source; we embed that
declared type. -/
structure ErrDetail where
  code : Int
  message : String
  data : Option (List (String × PyVal))
deriving Repr, DecidableEq

/-- Payload of a response envelope: `JSONRPCSuccessResponse` carries
`result`, `JSONRPCErrorResponse` carries `error`. -/
inductive RespPayload where
  | success (result : PyVal) : RespPayload
  | error (detail : ErrDetail) : RespPayload
deriving Repr, DecidableEq

/-- One response envelope (either pydantic response class; both carry
`jsonrpc="2.0"` and an `id`). -/
structure Response where
  id : PyVal
  payload : RespPayload
deriving Repr, DecidableEq

/-- Validation of the `id` field by pydantic, declared
`Optional[Union[str, int]]`: `None`, `str` and `int` are accepted;
booleans, lists and dicts are rejected (pydantic v2 does not coerce
`bool` to `int`). -/
def idOk : PyVal → Bool
  | .none => true
  | .str _ => true
  | .int _ => true
  | _ => false

/-- Constructing `JSONRPCErrorResponse(id=idv, error=detail)`: pydantic
raises `ValidationError` when `idv` is not `None`/`str`/`int`. -/
def mkErrorResponse (idv : PyVal) (detail : ErrDetail) : Except String Response :=
  if idOk idv then .ok ⟨idv, .error detail⟩
  else .error "pydantic ValidationError: id is not None, str or int"

/-- Constructing `JSONRPCSuccessResponse(id=idv, result=r)` (same `id`
validation; `result : Any` accepts every value). -/
def mkSuccessResponse (idv : PyVal) (r : PyVal) : Except String Response :=
  if idOk idv then .ok ⟨idv, .success r⟩
  else .error "pydantic ValidationError: id is not None, str or int"

/-- Rendering `model_dump()` of a response envelope (field order: jsonrpc, id,
then result / error). -/
def renderData : Option (List (String × PyVal)) → PyVal
  | Option.none => PyVal.none
  | some kvs => PyVal.dict kvs

def renderResponse (r : Response) : PyVal :=
  match r.payload with
  | .success v => .dict [("jsonrpc", .str "2.0"), ("id", r.id), ("result", v)]
  | .error d =>
      .dict [("jsonrpc", .str "2.0"), ("id", r.id),
             ("error", .dict [("code", .int d.code), ("message", .str d.message),
                              ("data", renderData d.data)])]

/-! ## Exceptions raised by handlers (`app/core/errors.py`) -/

/-- An exception raised by a method handler: either an `MCPError`
(with its `code`, `message` and `data`, the latter declared
`Optional[Dict[str, Any]]`), or any other Python exception carrying
its `str(e)` message. -/
inductive Exc where
  | mcp (code : Int) (message : String) (data : Option (List (String × PyVal))) : Exc
  | generic (message : String) : Exc
deriving Repr, DecidableEq

/-- An async method handler: Python `await handler(params)` either
returns a value or raises. -/
abbrev Handler := PyVal → Except Exc PyVal

/-- The module-global `mcp_methods` dict, passed explicitly. -/
abbrev MethodTable := String → Option Handler

/-! ## Tool registry (`app/services/tool_registry.py`) -/

/-- Model `ToolParameter` (pydantic): `default: Optional[Any] = None` is
embedded as a `PyVal` whose `PyVal.none` means "no default" (Python
cannot distinguish an explicit `None` default from no default either);
`enum: Optional[List[Any]] = None`. -/
structure ToolParameter where
  name : String
  type : String
  description : String
  required : Bool
  default : PyVal
  enum : Option (List PyVal)
deriving Repr, DecidableEq

/-- A tool handler: called with the validated parameter dict; may raise. -/
abbrev ToolHandler := List (String × PyVal) → Except Exc PyVal

/-- Model `Tool` (pydantic): `returns` and `schema` are plain JSON-ish
dicts, kept as `PyVal`. -/
structure Tool where
  name : String
  description : String
  parameters : List ToolParameter
  returns : PyVal
  schema : PyVal
  handler : Option ToolHandler

/-- The registry's `self.tools` dict: insertion-ordered with
replace-in-place on re-registration, like a Python dict. -/
abbrev ToolDict := List (String × Tool)

def dictInsert (d : ToolDict) (k : String) (v : Tool) : ToolDict :=
  if (List.lookup k d).isSome then
    d.map (fun kv => if kv.1 = k then (k, v) else kv)
  else d ++ [(k, v)]

/-- The JSON-schema fragment `register_tool` builds for one parameter
(keys in source order: type, description, then `enum` if truthy, then
`default` if not `None`). -/
def paramSchema (p : ToolParameter) : PyVal :=
  .dict ([("type", .str p.type.toLower), ("description", .str p.description)] ++
    (match p.enum with
     | some (x :: xs) => [("enum", PyVal.list (x :: xs))]
     | _ => []) ++
    (if p.default = PyVal.none then [] else [("default", p.default)]))

/-- Method `ToolRegistry.register_tool`: computes the derived schema at
registration time and stores the `Tool` under its name (last
registration wins). -/
def registerTool (tools : ToolDict) (name description : String)
    (handler : Option ToolHandler) (parameters : List ToolParameter)
    (returns : PyVal) : ToolDict :=
  let properties := parameters.map (fun p => (p.name, paramSchema p))
  let required := (parameters.filter (fun p => p.required)).map (fun p => p.name)
  let schema : PyVal :=
    .dict ([("type", .str "object"), ("properties", .dict properties)] ++
      (if required.isEmpty then [] else [("required", PyVal.list (required.map .str))]))
  dictInsert tools name ⟨name, description, parameters, returns, schema, handler⟩

/-- Rendering `model_dump()` of a `ToolParameter` (field order of the model). -/
def paramDump (p : ToolParameter) : PyVal :=
  .dict [("name", .str p.name), ("type", .str p.type),
         ("description", .str p.description), ("required", .bool p.required),
         ("default", p.default),
         ("enum", match p.enum with
                  | some l => PyVal.list l
                  | Option.none => PyVal.none)]

/-- Method `ToolRegistry.list_tools`. -/
def listTools (tools : ToolDict) : PyVal :=
  .list (tools.map (fun kv =>
    .dict [("name", .str kv.2.name), ("description", .str kv.2.description),
           ("parameters", .list (kv.2.parameters.map paramDump)),
           ("returns", kv.2.returns), ("schema", kv.2.schema)]))

/-- The `type_map` of `execute_tool`: parameter type strings to Python
types, with `str` as the fallback for unknown strings. -/
inductive PType where
  | pstr | pint | pnum | pbool | parr | pobj
deriving Repr, DecidableEq

def typeMap (t : String) : PType :=
  if t.toLower = "string" then .pstr
  else if t.toLower = "integer" then .pint
  else if t.toLower = "number" then .pnum
  else if t.toLower = "boolean" then .pbool
  else if t.toLower = "array" then .parr
  else if t.toLower = "object" then .pobj
  else .pstr

/-- Acceptance/coercion by pydantic v2 of one value against a field type
(approximated: numeric strings coerce to integer/number fields, booleans
are rejected for numeric fields, no other cross-type coercion; no claim
in this development depends on the coercion cases). -/
def coerceValue (t : PType) (v : PyVal) : Option PyVal :=
  match t, v with
  | .pstr, .str s => some (.str s)
  | .pint, .int n => some (.int n)
  | .pint, .str s => (s.toInt?).map PyVal.int
  | .pnum, .int n => some (.int n)
  | .pnum, .str s => (s.toInt?).map PyVal.int
  | .pbool, .bool b => some (.bool b)
  | .parr, .list xs => some (.list xs)
  | .pobj, .dict kvs => some (.dict kvs)
  | _, _ => Option.none

/-- The validation step of `execute_tool`: the dynamically created pydantic
`ValidationModel` — a required spec becomes a required field of its
mapped type, an optional spec an `Optional[...]` field whose model-level
default is `param.default` — applied to the raw params and dumped with
`model_dump(exclude_unset=True)`.

`exclude_unset=True` keeps exactly the fields present in the raw input
(extra raw keys are ignored by pydantic): a declared parameter missing
from the raw params contributes *no* entry, required-and-missing or
type-invalid fields contribute a violation, and all violations are
collected into one `ValidationError`.

`acceptValue` is the per-field check: a required spec is the mapped type
itself, an optional spec is `Optional[...]` and hence also accepts `None`.
-/
def acceptValue (p : ToolParameter) (v : PyVal) : Option PyVal :=
  if p.required then coerceValue (typeMap p.type) v
  else match v with
       | .none => some PyVal.none
       | _ => coerceValue (typeMap p.type) v

/-- One pass over the declared parameters, producing the collected
violations and the validated entries (in declaration order, which is the
pydantic field order `model_dump` preserves). -/
def validateFields (specs : List ToolParameter) (kvs : List (String × PyVal)) :
    List String × List (String × PyVal) :=
  match specs with
  | [] => ([], [])
  | p :: rest =>
    let r := validateFields rest kvs
    match kvs.lookup p.name with
    | some v =>
      match acceptValue p v with
      | some v2 => (r.1, (p.name, v2) :: r.2)
      | Option.none => (p.name :: r.1, r.2)
    | Option.none =>
      if p.required then (p.name :: r.1, r.2) else (r.1, r.2)

def validateParams (specs : List ToolParameter) (kvs : List (String × PyVal)) :
    Except (List String) (List (String × PyVal)) :=
  let r := validateFields specs kvs
  if r.1.isEmpty then .ok r.2 else .error r.1

/-- `ToolRegistry.execute_tool(name, params)`:
* unknown name → `MethodNotFoundError("Tool not found: " + name)`;
* `params` not a dict → the `TypeError` Python raises at
  `ValidationModel(**params)`, re-raised by the catch-all;
* validation failure → `InvalidParamsError` with
  `data={"errors": ...}` (the violation list abstracted to the offending
  field names);
* no handler → `InvalidParamsError("Tool handler not found")`;
* otherwise the handler on the validated dict, its result returned
  unmodified and any exception it raises re-raised unchanged.
-/
def executeTool (tools : ToolDict) (name : String) (params : PyVal) : Except Exc PyVal :=
  match List.lookup name tools with
  | Option.none => .error (.mcp (-32601) ("Tool not found: " ++ name) Option.none)
  | some tool =>
    match params with
    | .dict kvs =>
      match validateParams tool.parameters kvs with
      | .error errs =>
        .error (.mcp (-32602) ("Invalid parameters for tool: " ++ name)
          (some [("errors", PyVal.list (errs.map PyVal.str))]))
      | .ok vm =>
        match tool.handler with
        | some h => h vm
        | Option.none => .error (.mcp (-32602) "Tool handler not found" Option.none)
    | _ => .error (.generic "TypeError: argument after ** must be a mapping")

/-! ## Built-in methods registered in `app/api/routes/mcp.py` -/

/-- Built-in `handle_list_tools`. -/
def handleListTools (tools : ToolDict) : Handler :=
  fun _ => .ok (listTools tools)

/-- Built-in `handle_execute_tool`: params must be a dict; `name` must be a
truthy string (`not tool_name or not isinstance(tool_name, str)`);
`parameters` defaults to `{}` when absent. -/
def handleExecuteTool (tools : ToolDict) : Handler :=
  fun params =>
    match params with
    | .dict kvs =>
      match pyGet kvs "name" with
      | .str s =>
        if s = "" then .error (.mcp (-32602) "Tool name is required" Option.none)
        else executeTool tools s (pyGetD kvs "parameters" (.dict []))
      | _ => .error (.mcp (-32602) "Tool name is required" Option.none)
    | _ => .error (.mcp (-32602) "Parameters must be an object" Option.none)

/-- Built-in `handle_echo`: requires a dict params with a `message` key. -/
def handleEcho : Handler :=
  fun params =>
    match params with
    | .dict kvs =>
      match kvs.lookup "message" with
      | some v => .ok (.dict [("message", v)])
      | Option.none => .error (.mcp (-32602) "Message parameter is required" Option.none)
    | _ => .error (.mcp (-32602) "Message parameter is required" Option.none)

/-- The `mcp_methods` table as populated by the `@register_method`
decorators: `list_tools`, `execute_tool`, `echo`. -/
def builtinMethods (tools : ToolDict) : MethodTable :=
  fun name =>
    if name = "list_tools" then some (handleListTools tools)
    else if name = "execute_tool" then some (handleExecuteTool tools)
    else if name = "echo" then some handleEcho
    else Option.none

/-! ## The single-request processor (`process_single_jsonrpc`) -/

/-- `process_single_jsonrpc(request_data)` from `app/api/routes/mcp.py`.

Source structure, mirrored branch by branch:
1. `not isinstance(request_data, dict) or request_data.get("jsonrpc") != "2.0"`
   → `-32600 "Invalid Request"` with `id=None`;
2. `method = request_data.get("method")`;
   `not method or not isinstance(method, str)` (falsy or non-string, i.e.
   anything other than a non-empty string) → `-32600` echoing
   `request_data.get("id")`;
3. `request_id = request_data.get("id")`; `is_notification = request_id is None`;
4. unknown method → `None` for a notification, else `-32601`;
5. handler call on `request_data.get("params", {})`:
   success → `None` / success envelope; `MCPError` → `None` / its
   code+message+data; any other exception → `None` /
   `-32603 "Internal error: " + str(e)`.
Response construction goes through the pydantic envelope classes, whose
`id` field validation can itself raise (the `Except.error` branch).
-/
def processSingle (methods : MethodTable) (rd : PyVal) : Except String (Option Response) :=
  match rd with
  | .dict kvs =>
    if pyGet kvs "jsonrpc" = PyVal.str "2.0" then
      match pyGet kvs "method" with
      | .str s =>
        if s = "" then
          (mkErrorResponse (pyGet kvs "id")
            ⟨-32600, "Invalid Request: method must be a string", Option.none⟩).map some
        else
          match methods s with
          | Option.none =>
            if pyGet kvs "id" = PyVal.none then .ok Option.none
            else (mkErrorResponse (pyGet kvs "id") ⟨-32601, "Method not found", Option.none⟩).map some
          | some h =>
            match h (pyGetD kvs "params" (.dict [])) with
            | .ok r =>
              if pyGet kvs "id" = PyVal.none then .ok Option.none
              else (mkSuccessResponse (pyGet kvs "id") r).map some
            | .error (.mcp c m d) =>
              if pyGet kvs "id" = PyVal.none then .ok Option.none
              else (mkErrorResponse (pyGet kvs "id") ⟨c, m, d⟩).map some
            | .error (.generic m) =>
              if pyGet kvs "id" = PyVal.none then .ok Option.none
              else (mkErrorResponse (pyGet kvs "id")
                ⟨-32603, "Internal error: " ++ m, Option.none⟩).map some
      | _ =>
        (mkErrorResponse (pyGet kvs "id")
          ⟨-32600, "Invalid Request: method must be a string", Option.none⟩).map some
    else .ok (some ⟨.none, .error ⟨-32600, "Invalid Request", Option.none⟩⟩)
  | _ => .ok (some ⟨.none, .error ⟨-32600, "Invalid Request", Option.none⟩⟩)

/-- Variant of `process_single_jsonrpc` with the three `if is_notification: return
None` early-returns removed: the response the request *would* get. Used
to state that suppression is the only difference between notifications
and identified requests (see `processSingle_eq`). -/
def processSingleCore (methods : MethodTable) (rd : PyVal) : Except String Response :=
  match rd with
  | .dict kvs =>
    if pyGet kvs "jsonrpc" = PyVal.str "2.0" then
      match pyGet kvs "method" with
      | .str s =>
        if s = "" then
          mkErrorResponse (pyGet kvs "id")
            ⟨-32600, "Invalid Request: method must be a string", Option.none⟩
        else
          match methods s with
          | Option.none =>
            mkErrorResponse (pyGet kvs "id") ⟨-32601, "Method not found", Option.none⟩
          | some h =>
            match h (pyGetD kvs "params" (.dict [])) with
            | .ok r => mkSuccessResponse (pyGet kvs "id") r
            | .error (.mcp c m d) => mkErrorResponse (pyGet kvs "id") ⟨c, m, d⟩
            | .error (.generic m) =>
              mkErrorResponse (pyGet kvs "id")
                ⟨-32603, "Internal error: " ++ m, Option.none⟩
      | _ =>
        mkErrorResponse (pyGet kvs "id")
          ⟨-32600, "Invalid Request: method must be a string", Option.none⟩
    else .ok ⟨.none, .error ⟨-32600, "Invalid Request", Option.none⟩⟩
  | _ => .ok ⟨.none, .error ⟨-32600, "Invalid Request", Option.none⟩⟩

/-- The response an item contributes to a batch: `some` when
`process_single_jsonrpc` returns a response object, `none` when it
returns `None` or raises. -/
def respOpt (methods : MethodTable) (i : PyVal) : Option Response :=
  match processSingle methods i with
  | .ok o => o
  | .error _ => Option.none

/-- A structurally well-formed notification: a dict whose version tag is
exactly `"2.0"`, whose `method` is a non-empty string, and whose `id` is
absent (or `null`, which Python's `dict.get` cannot distinguish). These
are exactly the envelopes the engine silently drops. -/
def isWFNotif (rd : PyVal) : Bool :=
  match rd with
  | .dict kvs =>
    (pyGet kvs "jsonrpc" == PyVal.str "2.0") &&
    (match pyGet kvs "method" with
     | .str s => s != ""
     | _ => false) &&
    (pyGet kvs "id" == PyVal.none)
  | _ => false

/-! ## Batch processing (`process_jsonrpc`) -/

/-- The batch loop of `process_jsonrpc`: process each item with
`process_single_jsonrpc`, appending non-`None` responses in input order;
an exception escaping any item aborts the whole loop. -/
def processItems (methods : MethodTable) : List PyVal → Except String (List Response)
  | [] => .ok []
  | i :: rest =>
    match processSingle methods i with
    | .error e => .error e
    | .ok o =>
      match processItems methods rest with
      | .error e => .error e
      | .ok rs =>
        .ok (match o with | Option.none => rs | some r => r :: rs)

/-- A processed body as handed to `JSONResponse`: a single envelope's
`model_dump()` or a batch response's list. -/
inductive RespBody where
  | single (r : Response) : RespBody
  | batch (rs : List Response) : RespBody
deriving Repr, DecidableEq

/-- `process_jsonrpc(request_data)` from `app/api/routes/mcp.py`:
a list is a batch — empty list → a single `-32600 "Invalid Request:
empty batch"` envelope; otherwise the responses of the per-item loop,
wrapped as a batch when non-empty and `None` (`Option.none`) when every
item was a suppressed notification. A non-list is handed to
`process_single_jsonrpc` (whose `None` for a notification propagates).
-/
def processJsonrpc (methods : MethodTable) (rd : PyVal) : Except String (Option RespBody) :=
  match rd with
  | .list items =>
    if items.isEmpty then
      .ok (some (.single ⟨.none, .error ⟨-32600, "Invalid Request: empty batch", Option.none⟩⟩))
    else
      match processItems methods items with
      | .error e => .error e
      | .ok rs => .ok (if rs.isEmpty then Option.none else some (.batch rs))
  | _ =>
    match processSingle methods rd with
    | .error e => .error e
    | .ok o => .ok (o.map .single)

/-! ## The HTTP handler (`handle_mcp_request`) and the unified error shape -/

/-- Model `UnifiedErrorResponse` from `app/core/unified_errors.py` (the
`source` tag kept as its string value). -/
structure UnifiedErrorResponse where
  status : Nat
  error_code : Int
  message : String
  detail : Option (List (String × PyVal))
  source : String
deriving Repr, DecidableEq

/-- Method `UnifiedErrorResponse.to_jsonrpc_error(request_id)`: a JSON-RPC error
envelope with the unified response's code, message and detail. (Only ever
called with `request_id=None` in `handle_mcp_request`, so the pydantic
`id` validation cannot fire here.) -/
def UnifiedErrorResponse.to_jsonrpc_error (u : UnifiedErrorResponse) (request_id : PyVal) : Response :=
  ⟨request_id, .error ⟨u.error_code, u.message, u.detail⟩⟩

/-- Outcome of the HTTP handler: either a `JSONResponse` (transport
status plus body), or a Python exception escaping the handler (to be
picked up by the app-level generic exception handler in `main.py`). -/
inductive HandleResult where
  | response (status : Nat) (body : RespBody) : HandleResult
  | pythonError (msg : String) : HandleResult
deriving Repr, DecidableEq

/-- `handle_mcp_request` from `app/api/routes/mcp.py`.

Inputs: the `content-type` header value (`Option.none` when the header is
absent) and the parsed JSON body (`Option.none` when `request.json()`
raises `JSONDecodeError`).

* Header not exactly `"application/json"` → transport status 200 with a
  `-32700` JSON-RPC error envelope, body untouched;
* body not valid JSON → 200 with a `-32700` envelope;
* otherwise `process_jsonrpc`; its result is rendered with
  `response.model_dump()` at status 200. When `process_jsonrpc` returns
  `None` (all-notification batch, or a single notification), that call is
  `None.model_dump()` — an `AttributeError` the route does not catch
  (its `except MCPError` clause cannot fire: `process_single_jsonrpc`
  already catches every `MCPError`); likewise a pydantic
  `ValidationError` escaping response construction is uncaught here.
-/
def handleMcpRequest (methods : MethodTable) (contentType : Option String)
    (body : Option PyVal) : HandleResult :=
  if contentType = some "application/json" then
    match body with
    | Option.none =>
      .response 200 (.single ((UnifiedErrorResponse.mk 400 (-32700)
        "Parse error: Invalid JSON" Option.none "jsonrpc").to_jsonrpc_error .none))
    | some rd =>
      match processJsonrpc methods rd with
      | .ok (some b) => .response 200 b
      | .ok Option.none =>
        .pythonError "AttributeError: NoneType object has no attribute model_dump"
      | .error e => .pythonError e
  else
    .response 200 (.single ((UnifiedErrorResponse.mk 400 (-32700)
      "Content type must be application/json" Option.none "jsonrpc").to_jsonrpc_error .none))

/-! ## Concrete registry fixtures (from `app/tools/basic_tools.py`)

Used as concrete inputs for witnesses and counterexamples. The `echo`
tool is the one `basic_tools.py` registers (its handler returns
`{"message": params["message"]}`, raising `KeyError` when absent — the
exception text is abstracted). `random_number` reuses the exact
parameter specs of `basic_tools.random_number` (two optional integer
parameters with defaults 0 and 100); since its real handler draws
random numbers (impure, no pure embedding), the registered handler here
is a probe that returns the validated parameter dict it receives, which
is precisely the observable the claims about parameter validation are
stated over. -/

def echoToolHandler : ToolHandler :=
  fun vm =>
    match vm.lookup "message" with
    | some v => .ok (.dict [("message", v)])
    | Option.none => .error (.generic "KeyError: message")

/-- Probe handler: returns the validated parameter dict it was called
with, exposing exactly what `execute_tool` passes to a handler. -/
def probeHandler : ToolHandler :=
  fun vm => .ok (.dict vm)

/-- The parameter specs of `basic_tools.random_number`, verbatim:
optional `min`/`max` of declared type `"int"` with defaults 0 and 100. -/
def randomNumberParams : List ToolParameter :=
  [⟨"min", "int", "Minimum value (inclusive)", false, .int 0, Option.none⟩,
   ⟨"max", "int", "Maximum value (inclusive)", false, .int 100, Option.none⟩]

def sampleTools : ToolDict :=
  registerTool
    (registerTool [] "echo" "Echo back the input message" (some echoToolHandler)
      [⟨"message", "str", "Message to echo", true, PyVal.none, Option.none⟩]
      (.dict [("type", .str "object"),
              ("properties", .dict [("message", .dict [("type", .str "string")])])]))
    "random_number" "Generate a random number within a range" (some probeHandler)
    randomNumberParams
    (.dict [("type", .str "object"),
            ("properties", .dict [("number", .dict [("type", .str "number")])])])

/-- The all-notification batch used in C6: one well-formed `echo`
notification (no `id`). -/
def c6input : PyVal :=
  .list [.dict [("jsonrpc", .str "2.0"), ("method", .str "echo"),
                ("params", .dict [("message", .str "hi")])]]

/-- A minimal registry fixture for the parameter-default claims: one
tool with a single optional string parameter that declares the default
`"world"`, handled by the map-exposing probe. -/
def greetTool : Tool :=
  ⟨"greet", "Greet someone",
   [⟨"name", "string", "Name to greet", false, .str "world", Option.none⟩],
   .dict [], .dict [], some probeHandler⟩

def greetTools : ToolDict := [("greet", greetTool)]

/-- A handler that always raises a plain (non-`MCPError`) exception. -/
def boomHandler : Handler := fun _ => .error (.generic "kaboom")

/-- The built-in method table extended with a `boom` method whose
handler raises; input fixture for the handler-failure claim. -/
def boomMethods : MethodTable :=
  fun n => if n = "boom" then some boomHandler else builtinMethods sampleTools n

end MCP

namespace MCP

/-! # Theorems for the claims -/

/-- Claim C2, counterexample. The claim asserts that mapping each listed
JSON-RPC code to HTTP and back yields the same code. For
method-not-found this fails: `-32601 → 404 → -32800`, because the
`HTTP_TO_JSONRPC` table sends 404 to resource-not-found. -/
theorem c2_counterexample :
    jsonrpc_to_http (-32601) = 404 ∧ http_to_jsonrpc 404 = -32800 ∧
    http_to_jsonrpc (jsonrpc_to_http (-32601)) ≠ -32601 := by
  refine ⟨by decide, by decide, by decide⟩

/-- Claim C2, amended. Each of the eight listed code/status pairings is
realised by `jsonrpc_to_http`; the HTTP→JSON-RPC→HTTP round trip holds
for every listed status; the JSON-RPC→HTTP→JSON-RPC round trip holds for
-32600, -32602, -32603, -32800, -32000 and -32001 but fails for -32601
(which comes back as -32800) and -32700 (which comes back as -32600);
inputs off either table deterministically default to -32603 / HTTP 500. -/
theorem c2_mapping_properties :
    (jsonrpc_to_http (-32600) = 400 ∧ jsonrpc_to_http (-32700) = 400 ∧
     jsonrpc_to_http (-32601) = 404 ∧ jsonrpc_to_http (-32800) = 404 ∧
     jsonrpc_to_http (-32602) = 422 ∧ jsonrpc_to_http (-32603) = 500 ∧
     jsonrpc_to_http (-32000) = 401 ∧ jsonrpc_to_http (-32001) = 403) ∧
    (jsonrpc_to_http (http_to_jsonrpc 400) = 400 ∧
     jsonrpc_to_http (http_to_jsonrpc 404) = 404 ∧
     jsonrpc_to_http (http_to_jsonrpc 422) = 422 ∧
     jsonrpc_to_http (http_to_jsonrpc 500) = 500 ∧
     jsonrpc_to_http (http_to_jsonrpc 401) = 401 ∧
     jsonrpc_to_http (http_to_jsonrpc 403) = 403) ∧
    (http_to_jsonrpc (jsonrpc_to_http (-32600)) = -32600 ∧
     http_to_jsonrpc (jsonrpc_to_http (-32602)) = -32602 ∧
     http_to_jsonrpc (jsonrpc_to_http (-32603)) = -32603 ∧
     http_to_jsonrpc (jsonrpc_to_http (-32800)) = -32800 ∧
     http_to_jsonrpc (jsonrpc_to_http (-32000)) = -32000 ∧
     http_to_jsonrpc (jsonrpc_to_http (-32001)) = -32001) ∧
    (http_to_jsonrpc (jsonrpc_to_http (-32601)) = -32800 ∧
     http_to_jsonrpc (jsonrpc_to_http (-32700)) = -32600) ∧
    (∀ s : Nat, HTTP_TO_JSONRPC s = Option.none → http_to_jsonrpc s = -32603) ∧
    (∀ c : Int, JSONRPC_TO_HTTP c = Option.none → jsonrpc_to_http c = 500) := by
  refine ⟨by decide, by decide, by decide, by decide, ?_, ?_⟩
  · intro s h
    simp [http_to_jsonrpc, h]
  · intro c h
    simp [jsonrpc_to_http, h]

/-- Witness for the hypothesis-bearing clauses of `c2_mapping_properties`:
418 is on neither side of the HTTP table and maps to -32603; 7 is on
neither side of the JSON-RPC table and maps to 500. -/
theorem c2_mapping_properties_witness :
    (HTTP_TO_JSONRPC 418 = Option.none ∧ http_to_jsonrpc 418 = -32603) ∧
    (JSONRPC_TO_HTTP 7 = Option.none ∧ jsonrpc_to_http 7 = 500) :=
  ⟨⟨by decide, c2_mapping_properties.2.2.2.2.1 418 (by decide)⟩,
   ⟨by decide, c2_mapping_properties.2.2.2.2.2 7 (by decide)⟩⟩

/-- Claim C5. An empty batch array yields a single `-32600`
("Invalid Request: empty batch") error envelope — not an empty array and
not a per-item error — whatever the method table. -/
theorem c5_empty_batch (methods : MethodTable) :
    processJsonrpc methods (.list []) =
      .ok (some (.single ⟨.none, .error ⟨-32600, "Invalid Request: empty batch", Option.none⟩⟩)) :=
  rfl

/-- Claim C10. Whenever the `content-type` header is not exactly
`"application/json"` (including an absent header), the JSON-RPC endpoint
answers transport status 200 with a `-32700` JSON-RPC error envelope,
and the response does not depend on the request body at all (the body —
parsed or unparseable — is universally quantified on both sides). -/
theorem c10_content_type_gate (methods : MethodTable) (ct : Option String)
    (body : Option PyVal) (h : ct ≠ some "application/json") :
    handleMcpRequest methods ct body =
      .response 200 (.single ⟨.none, .error ⟨-32700, "Content type must be application/json", Option.none⟩⟩) := by
  simp [handleMcpRequest, h, UnifiedErrorResponse.to_jsonrpc_error]

/-- Witness for `c10_content_type_gate` at `content-type: text/plain`
with a well-formed body. -/
theorem c10_content_type_gate_witness :
    handleMcpRequest (builtinMethods sampleTools) (some "text/plain")
      (some (.dict [("jsonrpc", .str "2.0"), ("id", .int 1), ("method", .str "echo")])) =
      .response 200 (.single ⟨.none, .error ⟨-32700, "Content type must be application/json", Option.none⟩⟩) :=
  c10_content_type_gate (builtinMethods sampleTools) (some "text/plain")
    (some (.dict [("jsonrpc", .str "2.0"), ("id", .int 1), ("method", .str "echo")]))
    (by decide)

/-- Claim C9, counterexample. A body that is valid JSON but a bare number
is *not* rejected with parse-failure `-32700`: the engine answers with a
malformed-envelope `-32600` "Invalid Request" error (the top-level shape
check lives in `process_single_jsonrpc`, after JSON parsing succeeded). -/
theorem c9_counterexample :
    handleMcpRequest (builtinMethods sampleTools) (some "application/json") (some (.int 5)) =
      .response 200 (.single ⟨.none, .error ⟨-32600, "Invalid Request", Option.none⟩⟩) ∧
    (-32600 : Int) ≠ -32700 := by
  refine ⟨rfl, by decide⟩

/-- Claim C9, amended. A body that is not valid JSON is rejected with
parse-failure `-32700`; a body that is valid JSON but whose top-level
value is neither an object nor an array is rejected with
malformed-envelope `-32600` ("Invalid Request"), not `-32700`. -/
theorem c9_amended :
    (∀ (methods : MethodTable) (v : PyVal), v.isDict = false → v.isList = false →
      processJsonrpc methods v =
        .ok (some (.single ⟨.none, .error ⟨-32600, "Invalid Request", Option.none⟩⟩))) ∧
    (∀ methods : MethodTable,
      handleMcpRequest methods (some "application/json") Option.none =
        .response 200 (.single ⟨.none, .error ⟨-32700, "Parse error: Invalid JSON", Option.none⟩⟩)) := by
  constructor
  · intro methods v hd hl
    cases v <;> simp_all [PyVal.isDict, PyVal.isList, processJsonrpc, processSingle]
  · intro methods
    rfl

/-- Witness for `c9_amended` at the bare values `true` and `"x"`. -/
theorem c9_amended_witness :
    (PyVal.bool true).isDict = false ∧ (PyVal.bool true).isList = false ∧
    processJsonrpc (builtinMethods sampleTools) (.bool true) =
      .ok (some (.single ⟨.none, .error ⟨-32600, "Invalid Request", Option.none⟩⟩)) ∧
    processJsonrpc (builtinMethods sampleTools) (.str "x") =
      .ok (some (.single ⟨.none, .error ⟨-32600, "Invalid Request", Option.none⟩⟩)) :=
  ⟨rfl, rfl,
   c9_amended.1 (builtinMethods sampleTools) (.bool true) rfl rfl,
   c9_amended.1 (builtinMethods sampleTools) (.str "x") rfl rfl⟩

/-- Claim C6, code bug. For an all-notification batch the engine function
`process_jsonrpc` does return `None` (the filtered response list is
empty), exactly as the spec intends — but the HTTP route then calls
`response.model_dump()` on that `None` unconditionally, raising
`AttributeError` instead of emitting no body; the route's own
`except MCPError` cannot catch it, so the exception escapes to the
app-level generic exception handler registered in `main.py`, which
renders an internal-error *body*. The claimed "no response body at all"
has no code path. -/
theorem c6_all_notification_batch :
    processJsonrpc (builtinMethods sampleTools) c6input = .ok Option.none ∧
    handleMcpRequest (builtinMethods sampleTools) (some "application/json") (some c6input) =
      .pythonError "AttributeError: NoneType object has no attribute model_dump" :=
  ⟨rfl, rfl⟩

/-- Claim C1, counterexample. The empty envelope `{}` has no `id` field —
by the claim's definition, a notification — yet processing it produces a
`-32600` "Invalid Request" error response object, because the structural
version-tag check answers before notification detection runs. -/
theorem c1_counterexample :
    PyVal.hasKey (.dict []) "id" = false ∧
    processSingle (builtinMethods sampleTools) (.dict []) =
      .ok (some ⟨.none, .error ⟨-32600, "Invalid Request", Option.none⟩⟩) :=
  ⟨rfl, rfl⟩

/-- Characterisation of `process_single_jsonrpc`: suppression of
well-formed notifications is its only difference from the
suppression-free `processSingleCore`. -/
theorem processSingle_eq (methods : MethodTable) (rd : PyVal) :
    processSingle methods rd =
      if isWFNotif rd then .ok Option.none
      else (processSingleCore methods rd).map some := by
  cases rd with
  | dict kvs =>
    by_cases hj : pyGet kvs "jsonrpc" = PyVal.str "2.0"
    · cases hm : pyGet kvs "method" with
      | str s =>
        by_cases hs : s = ""
        · simp [processSingle, processSingleCore, isWFNotif, Except.map, hj, hm, hs]
        · cases hms : methods s with
          | none =>
            by_cases hid : pyGet kvs "id" = PyVal.none <;>
              simp [processSingle, processSingleCore, isWFNotif, Except.map, hj, hm, hs, hms, hid]
          | some hh =>
            cases hr : hh (pyGetD kvs "params" (.dict [])) with
            | ok r =>
              by_cases hid : pyGet kvs "id" = PyVal.none <;>
                simp [processSingle, processSingleCore, isWFNotif, Except.map, hj, hm, hs, hms, hr, hid]
            | error e =>
              cases e <;> by_cases hid : pyGet kvs "id" = PyVal.none <;>
                simp [processSingle, processSingleCore, isWFNotif, Except.map, hj, hm, hs, hms, hr, hid]
      | none => simp [processSingle, processSingleCore, isWFNotif, Except.map, hj, hm]
      | bool b => simp [processSingle, processSingleCore, isWFNotif, Except.map, hj, hm]
      | int n => simp [processSingle, processSingleCore, isWFNotif, Except.map, hj, hm]
      | list xs => simp [processSingle, processSingleCore, isWFNotif, Except.map, hj, hm]
      | dict d => simp [processSingle, processSingleCore, isWFNotif, Except.map, hj, hm]
    · simp [processSingle, processSingleCore, isWFNotif, Except.map, hj]
   | none => simp [processSingle, processSingleCore, isWFNotif, Except.map]
  | bool b => simp [processSingle, processSingleCore, isWFNotif, Except.map]
  | int n => simp [processSingle, processSingleCore, isWFNotif, Except.map]
  | str s => simp [processSingle, processSingleCore, isWFNotif, Except.map]
  | list xs => simp [processSingle, processSingleCore, isWFNotif, Except.map]

/-- When `process_single_jsonrpc` returns normally, it returns `None`
exactly for well-formed notifications. -/
theorem procSingle_ok_none_iff (methods : MethodTable) (rd : PyVal) (o : Option Response)
    (h : processSingle methods rd = .ok o) :
    o = Option.none ↔ isWFNotif rd = true := by
  rw [processSingle_eq] at h
  by_cases hw : isWFNotif rd = true
  · rw [if_pos hw] at h
    injection h with h2
    simp [hw, ← h2]
  · rw [if_neg hw] at h
    cases hc : processSingleCore methods rd with
    | error e => rw [hc] at h; simp [Except.map] at h
    | ok r =>
      rw [hc] at h
      simp only [Except.map] at h
      injection h with h2
      simp [hw, ← h2]

/-- Claim C1, amended. An envelope with no `id` that passes the structural
checks (version tag exactly `"2.0"`, `method` a non-empty string)
produces no response under *every* method table — hence in particular
when the method is unknown, when the handler raises `MCPError`
(e.g. invalid parameters), and when the handler raises any other
exception. (Structurally malformed envelopes without an `id` do produce
a `-32600` response; see the counterexample.) -/
theorem c1_wf_notifications_silent (methods : MethodTable) (rd : PyVal)
    (h : isWFNotif rd = true) :
    processSingle methods rd = .ok Option.none := by
  rw [processSingle_eq, h]
  rfl

/-- Witness for `c1_wf_notifications_silent`: a well-formed notification
naming an unknown method is dropped without a response. -/
theorem c1_wf_notifications_silent_witness :
    isWFNotif (.dict [("jsonrpc", .str "2.0"), ("method", .str "no_such_method")]) = true ∧
    processSingle (builtinMethods sampleTools)
      (.dict [("jsonrpc", .str "2.0"), ("method", .str "no_such_method")]) = .ok Option.none :=
  ⟨rfl, c1_wf_notifications_silent (builtinMethods sampleTools)
    (.dict [("jsonrpc", .str "2.0"), ("method", .str "no_such_method")]) rfl⟩

/-- The batch loop collects exactly the non-`None` per-item responses,
in input order. -/
theorem processItems_eq_filterMap (methods : MethodTable) :
    ∀ (items : List PyVal) (rs : List Response),
      processItems methods items = .ok rs → rs = items.filterMap (respOpt methods) := by
  intro items
  induction items with
  | nil =>
    intro rs h
    simp only [processItems] at h
    injection h with h2
    simp [← h2]
  | cons i t ih =>
    intro rs h
    simp only [processItems] at h
    cases hi : processSingle methods i with
    | error e => rw [hi] at h; cases h
    | ok o =>
      rw [hi] at h
      cases ht : processItems methods t with
      | error e => rw [ht] at h; cases h
      | ok rs2 =>
        rw [ht] at h
        injection h with h2
        cases o <;>
          simp [← h2, List.filterMap_cons, respOpt, hi, ih rs2 ht]

/-- No item of a successfully processed batch raised an escaping
exception. -/
theorem processItems_no_abort (methods : MethodTable) :
    ∀ (items : List PyVal) (rs : List Response),
      processItems methods items = .ok rs →
      ∀ i ∈ items, ∃ o, processSingle methods i = .ok o := by
  intro items
  induction items with
  | nil => intro rs _ i hi; cases hi
  | cons a t ih =>
    intro rs h i hi
    simp only [processItems] at h
    cases ha : processSingle methods a with
    | error e => rw [ha] at h; cases h
    | ok o =>
      rw [ha] at h
      cases ht : processItems methods t with
      | error e => rw [ht] at h; cases h
      | ok rs2 =>
        cases hi with
        | head => exact ⟨o, ha⟩
        | tail _ hmem => exact ih rs2 ht i hmem

/-- Concatenating two abort-free batches concatenates their response
lists. -/
theorem processItems_append (methods : MethodTable) :
    ∀ (xs ys : List PyVal) (rxs rys : List Response),
      processItems methods xs = .ok rxs → processItems methods ys = .ok rys →
      processItems methods (xs ++ ys) = .ok (rxs ++ rys) := by
  intro xs
  induction xs with
  | nil =>
    intro ys rxs rys hx hy
    simp only [processItems] at hx
    injection hx with h2
    simp [← h2, hy]
  | cons a t ih =>
    intro ys rxs rys hx hy
    simp only [processItems] at hx
    cases ha : processSingle methods a with
    | error e => rw [ha] at hx; cases hx
    | ok o =>
      rw [ha] at hx
      cases ht : processItems methods t with
      | error e => rw [ht] at hx; cases hx
      | ok rs2 =>
        rw [ht] at hx
        injection hx with h2
        have hta := ih ys rs2 rys ht hy
        simp only [List.cons_append, processItems, ha]
        cases o <;> simp [← h2, hta]

/-- Length of a `filterMap` as a `countP` of the hits. -/
theorem length_filterMap_countP {α β : Type} (f : α → Option β) (l : List α) :
    (l.filterMap f).length = l.countP (fun a => (f a).isSome) := by
  induction l with
  | nil => rfl
  | cons a t ih =>
    cases h : f a <;> simp [List.filterMap_cons, h, List.countP_cons, ih]

/-- Counting the complement of a Boolean predicate. -/
theorem countP_bnot {α : Type} (p : α → Bool) (l : List α) :
    l.countP (fun a => !p a) = l.length - l.countP p := by
  induction l with
  | nil => rfl
  | cons a t ih =>
    have hle := List.countP_le_length (p := p) (l := t)
    cases h : p a
    · simp only [List.countP_cons, h, ih]
      simp
      omega
    · simp only [List.countP_cons, h, ih]
      simp

/-- Count `countP` only depends on the predicate's values on the members. -/
theorem countP_congr_mem {α : Type} (p q : α → Bool) :
    ∀ l : List α, (∀ a ∈ l, p a = q a) → l.countP p = l.countP q := by
  intro l
  induction l with
  | nil => intro _; rfl
  | cons a t ih =>
    intro h
    have ha := h a (List.mem_cons_self a t)
    have ht := ih (fun x hx => h x (List.mem_cons_of_mem a hx))
    simp [List.countP_cons, ha, ht]

/-- Claim C3, counterexample. The claim counts every no-`id` item as a
notification. In the one-element batch `[{}]` the single item has no
`id` (N = 1, M = 1), so the claim predicts a response array with 0
entries; the code instead answers with a one-entry array, because the
structurally malformed item gets a `-32600` response despite having no
`id`. -/
theorem c3_counterexample :
    PyVal.hasKey (.dict []) "id" = false ∧
    processJsonrpc (builtinMethods sampleTools) (.list [.dict []]) =
      .ok (some (.batch [⟨.none, .error ⟨-32600, "Invalid Request", Option.none⟩⟩])) ∧
    [(⟨.none, .error ⟨-32600, "Invalid Request", Option.none⟩⟩ : Response)].length = 1 :=
  ⟨rfl, rfl, rfl⟩

/-- Claim C3, amended. For a batch whose processing completes without an
escaping exception (in particular, whenever every item's `id` is absent,
a string or an integer), the response array is exactly the in-order list
of per-item responses with the suppressed items removed — no `null`
placeholders — and its length is N − M where M counts the items that
are *well-formed notifications* (valid version tag, non-empty string
method, no `id`). Malformed no-`id` items still contribute an error
entry, which is the one correction to the claim. -/
theorem c3_batch_filtering (methods : MethodTable) (items : List PyVal)
    (rs : List Response) (h : processItems methods items = .ok rs) :
    rs = items.filterMap (respOpt methods) ∧
    rs.length = items.length - items.countP (fun i => isWFNotif i) ∧
    (items ≠ [] → processJsonrpc methods (.list items) =
      .ok (if rs.isEmpty then Option.none else some (.batch rs))) := by
  have hfm := processItems_eq_filterMap methods items rs h
  refine ⟨hfm, ?_, ?_⟩
  · rw [hfm, length_filterMap_countP]
    have hc : ∀ i ∈ items, ((respOpt methods i).isSome) = (!isWFNotif i) := by
      intro i hi
      obtain ⟨o, ho⟩ := processItems_no_abort methods items rs h i hi
      have hiff := procSingle_ok_none_iff methods i o ho
      cases o with
      | none =>
        have hw : isWFNotif i = true := hiff.mp rfl
        simp [respOpt, ho, hw]
      | some r =>
        have hw : isWFNotif i = false := by
          cases hwv : isWFNotif i
          · rfl
          · exact absurd (hiff.mpr hwv) (by simp)
        simp [respOpt, ho, hw]
    rw [countP_congr_mem _ _ items hc, countP_bnot]
  · intro hne
    have hemp : items.isEmpty = false := by
      cases items
      · exact absurd rfl hne
      · rfl
    simp [processJsonrpc, hemp, h]

/-- Witness for `c3_batch_filtering`: a two-item batch — an identified
`echo` request followed by an `echo` notification — yields the
one-entry response array for the identified item. -/
theorem c3_batch_filtering_witness :
    ([⟨.str "a", .success (.dict [("message", .str "hi")])⟩] : List Response) =
      ([.dict [("jsonrpc", .str "2.0"), ("id", .str "a"), ("method", .str "echo"),
               ("params", .dict [("message", .str "hi")])],
        .dict [("jsonrpc", .str "2.0"), ("method", .str "echo"),
               ("params", .dict [("message", .str "ignored")])]] : List PyVal).filterMap
        (respOpt (builtinMethods sampleTools)) ∧
    ([⟨.str "a", .success (.dict [("message", .str "hi")])⟩] : List Response).length =
      ([.dict [("jsonrpc", .str "2.0"), ("id", .str "a"), ("method", .str "echo"),
               ("params", .dict [("message", .str "hi")])],
        .dict [("jsonrpc", .str "2.0"), ("method", .str "echo"),
               ("params", .dict [("message", .str "ignored")])]] : List PyVal).length -
      ([.dict [("jsonrpc", .str "2.0"), ("id", .str "a"), ("method", .str "echo"),
               ("params", .dict [("message", .str "hi")])],
        .dict [("jsonrpc", .str "2.0"), ("method", .str "echo"),
               ("params", .dict [("message", .str "ignored")])]] : List PyVal).countP
        (fun i => isWFNotif i) ∧
    (([.dict [("jsonrpc", .str "2.0"), ("id", .str "a"), ("method", .str "echo"),
               ("params", .dict [("message", .str "hi")])],
        .dict [("jsonrpc", .str "2.0"), ("method", .str "echo"),
               ("params", .dict [("message", .str "ignored")])]] : List PyVal) ≠ [] →
      processJsonrpc (builtinMethods sampleTools)
        (.list [.dict [("jsonrpc", .str "2.0"), ("id", .str "a"), ("method", .str "echo"),
                       ("params", .dict [("message", .str "hi")])],
                .dict [("jsonrpc", .str "2.0"), ("method", .str "echo"),
                       ("params", .dict [("message", .str "ignored")])]]) =
        .ok (if ([⟨.str "a", .success (.dict [("message", .str "hi")])⟩] : List Response).isEmpty
             then Option.none
             else some (.batch [⟨.str "a", .success (.dict [("message", .str "hi")])⟩]))) :=
  c3_batch_filtering (builtinMethods sampleTools)
    [.dict [("jsonrpc", .str "2.0"), ("id", .str "a"), ("method", .str "echo"),
            ("params", .dict [("message", .str "hi")])],
     .dict [("jsonrpc", .str "2.0"), ("method", .str "echo"),
            ("params", .dict [("message", .str "ignored")])]]
    [⟨.str "a", .success (.dict [("message", .str "hi")])⟩] rfl

/-- A string or integer value passes the pydantic `id` validation and is
not Python `None`. -/
theorem strInt_idOk (v : PyVal) (h : v.isStr = true ∨ v.isInt = true) :
    idOk v = true ∧ v ≠ PyVal.none := by
  cases v <;> simp_all [PyVal.isStr, PyVal.isInt, idOk]

/-- Claim C4. Every structurally valid single request with a present
string or integer `id` gets exactly one response envelope; its `id` is
the request's `id` value itself (hence type-preserving: a string id is
echoed as that string, an integer id as that integer), and the rendered
envelope carries exactly one of the keys `result` / `error` — never
both, never neither. Quantified over every method table, so it covers
success, unknown method, `MCPError` and handler-exception outcomes. -/
theorem c4_id_echo_and_exclusive (methods : MethodTable)
    (kvs : List (String × PyVal)) (s : String)
    (h1 : pyGet kvs "jsonrpc" = PyVal.str "2.0")
    (h2 : pyGet kvs "method" = PyVal.str s) (h3 : s ≠ "")
    (h4 : (pyGet kvs "id").isStr = true ∨ (pyGet kvs "id").isInt = true) :
    ∃ r : Response, processSingle methods (.dict kvs) = .ok (some r) ∧
      r.id = pyGet kvs "id" ∧
      (((renderResponse r).hasKey "result" = true ∧ (renderResponse r).hasKey "error" = false) ∨
       ((renderResponse r).hasKey "result" = false ∧ (renderResponse r).hasKey "error" = true)) := by
  obtain ⟨hok, hne⟩ := strInt_idOk _ h4
  cases hms : methods s with
  | none =>
    refine ⟨⟨pyGet kvs "id", .error ⟨-32601, "Method not found", Option.none⟩⟩, ?_, rfl, ?_⟩
    · simp [processSingle, h1, h2, h3, hms, hne, mkErrorResponse, hok, Except.map]
    · exact Or.inr ⟨rfl, rfl⟩
  | some hh =>
    cases hr : hh (pyGetD kvs "params" (.dict [])) with
    | ok rv =>
      refine ⟨⟨pyGet kvs "id", .success rv⟩, ?_, rfl, ?_⟩
      · simp [processSingle, h1, h2, h3, hms, hr, hne, mkSuccessResponse, hok, Except.map]
      · exact Or.inl ⟨rfl, rfl⟩
    | error e =>
      cases e with
      | mcp c m d =>
        refine ⟨⟨pyGet kvs "id", .error ⟨c, m, d⟩⟩, ?_, rfl, ?_⟩
        · simp [processSingle, h1, h2, h3, hms, hr, hne, mkErrorResponse, hok, Except.map]
        · exact Or.inr ⟨rfl, rfl⟩
      | generic m =>
        refine ⟨⟨pyGet kvs "id", .error ⟨-32603, "Internal error: " ++ m, Option.none⟩⟩, ?_, rfl, ?_⟩
        · simp [processSingle, h1, h2, h3, hms, hr, hne, mkErrorResponse, hok, Except.map]
        · exact Or.inr ⟨rfl, rfl⟩

/-- A key absent from the raw parameters is absent from the validated
entries, whatever the specs say (in particular whether or not a default
is declared): `exclude_unset` keeps only fields present in the input. -/
theorem validateFields_absent (specs : List ToolParameter)
    (kvs : List (String × PyVal)) (k : String) (hk : kvs.lookup k = Option.none) :
    (validateFields specs kvs).2.lookup k = Option.none := by
  induction specs with
  | nil => rfl
  | cons p rest ih =>
    simp only [validateFields]
    cases hp : kvs.lookup p.name with
    | none =>
      cases hq : p.required <;> simp [hp, hq, ih]
    | some v =>
      cases ha : acceptValue p v with
      | none => simp [hp, ha, ih]
      | some v2 =>
        have hne : ¬(k = p.name) := by
          intro he
          rw [he, hp] at hk
          cases hk
        have hbe : (k == p.name) = false := by
          simp [hne]
        simp [hp, ha, List.lookup, hbe, ih]

/-- Claim C7, counterexample. Instantiating the claim at the parameter
specs of `basic_tools.random_number` — `min` and `max` are optional with
declared defaults 0 and 100 — and empty raw parameters: the claim
predicts a validated map binding `min ↦ 0` and `max ↦ 100`, but
validation produces the *empty* map, and the handler (here the probe,
which returns exactly the dict it was called with) receives a dict
without either key. -/
theorem c7_counterexample :
    validateParams randomNumberParams [] = .ok [] ∧
    executeTool sampleTools "random_number" (.dict []) = .ok (.dict []) ∧
    PyVal.hasKey (.dict []) "min" = false ∧ PyVal.hasKey (.dict []) "max" = false :=
  ⟨rfl, rfl, rfl, rfl⟩

/-- Claim C7, amended. The validated parameter map `execute_tool` passes
to the handler (the handler receives exactly the validated map) omits
*every* declared parameter that is absent from the raw parameters —
whether or not the parameter is optional and whether or not it declares
a default; declared defaults surface only in the registration-time
schema, never in the validated map. -/
theorem c7_missing_optional_omitted (tools : ToolDict) (name : String) (tool : Tool)
    (kvs vm : List (String × PyVal)) (k : String) (h : ToolHandler)
    (ht : List.lookup name tools = some tool)
    (hh : tool.handler = some h)
    (hv : validateParams tool.parameters kvs = .ok vm) :
    executeTool tools name (.dict kvs) = h vm ∧
    (kvs.lookup k = Option.none → vm.lookup k = Option.none) := by
  constructor
  · simp [executeTool, ht, hv, hh]
  · intro hk
    simp only [validateParams] at hv
    by_cases he : (validateFields tool.parameters kvs).1.isEmpty
    · rw [if_pos he] at hv
      injection hv with h2
      rw [← h2]
      exact validateFields_absent tool.parameters kvs k hk
    · rw [if_neg he] at hv
      cases hv

/-- Witness for `c7_missing_optional_omitted`: the `greet` fixture whose
optional `name` parameter declares the default `"world"`, with empty raw
parameters; the probe handler receives the empty map. -/
theorem c7_missing_optional_omitted_witness :
    executeTool greetTools "greet" (.dict []) = probeHandler [] ∧
    (([] : List (String × PyVal)).lookup "name" = Option.none →
      ([] : List (String × PyVal)).lookup "name" = Option.none) :=
  c7_missing_optional_omitted greetTools "greet" greetTool [] [] "name" probeHandler
    rfl rfl rfl

/-- Claim C8. When a batch item's matched handler raises a plain
exception, the item's response is an internal-failure envelope — code
`-32603`, message `"Internal error: "` followed by the exception's
message — and the sibling items' responses are exactly what they are
when processed on their own (`rxs` before, `rys` after, unchanged). -/
theorem c8_handler_exception_isolated (methods : MethodTable) (xs ys : List PyVal)
    (kvs : List (String × PyVal)) (s : String) (h : Handler) (msg : String)
    (rxs rys : List Response)
    (h1 : pyGet kvs "jsonrpc" = PyVal.str "2.0")
    (h2 : pyGet kvs "method" = PyVal.str s) (h3 : s ≠ "")
    (h4 : methods s = some h)
    (h5 : h (pyGetD kvs "params" (.dict [])) = .error (.generic msg))
    (h6 : (pyGet kvs "id").isStr = true ∨ (pyGet kvs "id").isInt = true)
    (hxs : processItems methods xs = .ok rxs)
    (hys : processItems methods ys = .ok rys) :
    processItems methods (xs ++ .dict kvs :: ys) =
      .ok (rxs ++ ⟨pyGet kvs "id", .error ⟨-32603, "Internal error: " ++ msg, Option.none⟩⟩ :: rys) := by
  obtain ⟨hok, hne⟩ := strInt_idOk _ h6
  have hb : processSingle methods (.dict kvs) =
      .ok (some ⟨pyGet kvs "id", .error ⟨-32603, "Internal error: " ++ msg, Option.none⟩⟩) := by
    simp [processSingle, h1, h2, h3, h4, h5, hne, mkErrorResponse, hok, Except.map]
  have hcons : processItems methods (.dict kvs :: ys) =
      .ok (⟨pyGet kvs "id", .error ⟨-32603, "Internal error: " ++ msg, Option.none⟩⟩ :: rys) := by
    simp only [processItems, hb, hys]
  exact processItems_append methods xs (.dict kvs :: ys) rxs _ hxs hcons

/-- Witness for `c8_handler_exception_isolated`: a batch of an `echo`
request, a `boom` request (whose handler raises `"kaboom"`), and nothing
after; the echo response is untouched and the boom item yields the
`-32603` envelope with the exception message. -/
theorem c8_handler_exception_isolated_witness :
    processItems boomMethods
      ([.dict [("jsonrpc", .str "2.0"), ("id", .str "a"), ("method", .str "echo"),
               ("params", .dict [("message", .str "hi")])]] ++
        .dict [("jsonrpc", .str "2.0"), ("id", .int 7), ("method", .str "boom")] :: []) =
      .ok ([⟨.str "a", .success (.dict [("message", .str "hi")])⟩] ++
        ⟨pyGet [("jsonrpc", .str "2.0"), ("id", .int 7), ("method", .str "boom")] "id",
         .error ⟨-32603, "Internal error: " ++ "kaboom", Option.none⟩⟩ :: []) :=
  c8_handler_exception_isolated boomMethods
    [.dict [("jsonrpc", .str "2.0"), ("id", .str "a"), ("method", .str "echo"),
            ("params", .dict [("message", .str "hi")])]]
    []
    [("jsonrpc", .str "2.0"), ("id", .int 7), ("method", .str "boom")]
    "boom" boomHandler "kaboom"
    [⟨.str "a", .success (.dict [("message", .str "hi")])⟩] []
    rfl rfl (by decide) rfl rfl (Or.inr rfl) rfl rfl

/-- Witness for `c4_id_echo_and_exclusive`: a concrete `echo` request
with string id `"w1"` against the real built-in method table. -/
theorem c4_id_echo_and_exclusive_witness :
    ∃ r : Response,
      processSingle (builtinMethods sampleTools)
        (.dict [("jsonrpc", .str "2.0"), ("id", .str "w1"), ("method", .str "echo"),
                ("params", .dict [("message", .str "hello")])]) = .ok (some r) ∧
      r.id = pyGet [("jsonrpc", .str "2.0"), ("id", .str "w1"), ("method", .str "echo"),
                ("params", .dict [("message", .str "hello")])] "id" ∧
      (((renderResponse r).hasKey "result" = true ∧ (renderResponse r).hasKey "error" = false) ∨
       ((renderResponse r).hasKey "result" = false ∧ (renderResponse r).hasKey "error" = true)) :=
  c4_id_echo_and_exclusive (builtinMethods sampleTools)
    [("jsonrpc", .str "2.0"), ("id", .str "w1"), ("method", .str "echo"),
     ("params", .dict [("message", .str "hello")])] "echo"
    rfl rfl (by decide) (Or.inl rfl)

end MCP
